import Mathlib

/-!
Shallow embedding of `src/schematic.rs` (the rudr component schematic module).

The Rust file defines: the schema data model for a Component (parameters,
containers, resources, health probes, ports), a pure projection
`Component::to_pod_spec` into Kubernetes pod-spec types, serde-derived
(de)serialization with defaults, and a `GroupVersionKind` string parser.

Embedding conventions:
  * Rust `i32` fields are `Int` here; the Rust type system's range guarantee is
    captured by explicit well-formedness predicates (`isI32`) where it matters.
  * `Option<T>` is `Option T`; `Vec<T>` is `List T`; `Result<T, failure::Error>`
    is `Except String T` (the source only ever carries a message string).
  * `BTreeMap<String, Quantity>` is an association list in ascending key order;
    the source inserts exactly the keys "cpu" then "memory", which is already
    ascending order.
  * serde(JSON) serialization is embedded at the structured-value level: a
    `Json` inductive stands for `serde_json::Value`, and per-type encoders and
    decoders implement the semantics of the derive attributes visible in the
    source (`rename_all = "camelCase"`, struct-level and field-level
    `serde(default)`, the `type` rename on `parameter_type`, `Option` fields
    absent-or-null decoding to `none`). Text-level JSON syntax belongs to the
    external serde_json library and is not modelled.
-/

set_option autoImplicit false

namespace Schematic

/-- Json mirrors `serde_json::Value` (floating-point numbers are not needed by
any schematic field and are not modelled). -/
inductive Json where
  | null
  | bool (b : Bool)
  | num (n : Int)
  | str (s : String)
  | arr (items : List Json)
  | obj (fields : List (String × Json))

/-- The default workload type if none is present (`DEFAULT_WORKLOAD_TYPE`). -/
def DEFAULT_WORKLOAD_TYPE : String := "core.hydra.io/v1alpha1.Singleton"

/-- ParameterType defines the types of parameters for a Parameters object. -/
inductive ParameterType where
  | Boolean
  | String
  | Number
  | Null
  deriving DecidableEq

/-- AccessMode defines the access modes for file systems. -/
inductive AccessMode where
  | RW
  | RO
  deriving DecidableEq

/-- Default for AccessMode (`impl Default for AccessMode`). -/
def AccessMode.default : AccessMode := AccessMode.RW

/-- SharingPolicy defines whether a filesystem can be shared across containers. -/
inductive SharingPolicy where
  | Shared
  | Exclusive
  deriving DecidableEq

/-- Default for SharingPolicy (`impl Default for SharingPolicy`). -/
def SharingPolicy.default : SharingPolicy := SharingPolicy.Exclusive

/-- PortProtocol is a protocol used when attaching to ports. -/
inductive PortProtocol where
  | TCP
  | UDP
  | SCTP
  deriving DecidableEq

/-- `PortProtocol::as_str`. -/
def PortProtocol.as_str : PortProtocol → String
  | PortProtocol.UDP => "UDP"
  | PortProtocol.SCTP => "SCTP"
  | PortProtocol.TCP => "TCP"

/-- Default for PortProtocol (`impl Default for PortProtocol`). -/
def PortProtocol.default : PortProtocol := PortProtocol.TCP

/-- `impl ToString for PortProtocol` delegates to `as_str`. -/
def PortProtocol.to_string (p : PortProtocol) : String := p.as_str

/-- CPU describes a CPU resource allocation for a container. -/
structure CPU where
  required : String
  deriving DecidableEq

/-- Memory describes the memory allocation for a container. -/
structure Memory where
  required : String
  deriving DecidableEq

/-- GPU describes a Container's need for a GPU. -/
structure GPU where
  required : String
  deriving DecidableEq

/-- Path describes a path that is attached to a Container. -/
structure Path where
  name : String
  path : String
  access_mode : AccessMode
  sharing_policy : SharingPolicy
  deriving DecidableEq

/-- Resources defines the resources required by a container. -/
structure Resources where
  cpu : CPU
  memory : Memory
  gpu : GPU
  paths : List Path
  deriving DecidableEq

/-- `impl Default for Resources`. -/
def Resources.default : Resources :=
  { cpu := { required := "1" }
    memory := { required := "1G" }
    gpu := { required := "0" }
    paths := [] }

/-- Exec describes a shell command, as an array, for execution in a Container. -/
structure Exec where
  command : List String
  deriving DecidableEq

/-- HttpHeader describes an HTTP header. Headers are a sequence, not a map,
because the same header name is allowed multiple times. -/
structure HttpHeader where
  name : String
  value : String
  deriving DecidableEq

/-- HttpGet describes an HTTP GET request used to probe a container. -/
structure HttpGet where
  path : String
  port : Int
  http_headers : List HttpHeader
  deriving DecidableEq

/-- TcpSocket defines a socket used for health probing. -/
structure TcpSocket where
  port : Int
  deriving DecidableEq

/-- HealthProbe describes a probe used to check on the health of a Container. -/
structure HealthProbe where
  exec : Option Exec
  http_get : Option HttpGet
  tcp_socket : Option TcpSocket
  initial_delay_seconds : Int
  period_seconds : Int
  timeout_seconds : Int
  success_threshold : Int
  failure_threshold : Int
  deriving DecidableEq

/-- `impl Default for HealthProbe`. -/
def HealthProbe.default : HealthProbe :=
  { exec := none
    http_get := none
    tcp_socket := none
    initial_delay_seconds := 0
    period_seconds := 10
    timeout_seconds := 1
    success_threshold := 1
    failure_threshold := 3 }

/-- Env describes an environment variable for a container. -/
structure Env where
  name : String
  value : Option String
  from_param : Option String
  deriving DecidableEq

/-- Port describes a port on a Container. -/
structure Port where
  name : String
  container_port : Int
  protocol : PortProtocol
  deriving DecidableEq

/-- Parameter describes a configurable unit on a Component or Application. -/
structure Parameter where
  name : String
  description : Option String
  parameter_type : ParameterType
  required : Bool
  default : Option Json

/-- Supplies the default value for all `required` fields (`default_required`). -/
def default_required : Bool := false

/-- Workload settings describe the configuration for a workload. -/
structure WorkloadSetting where
  name : String
  description : Option String
  parameter_type : ParameterType
  required : Bool
  default : Option Json
  from_param : Option String

/-- Container describes the container configuration for a Component. -/
structure Container where
  name : String
  image : String
  resources : Resources
  env : List Env
  ports : List Port
  liveness_probe : Option HealthProbe
  readiness_probe : Option HealthProbe

/-- Component describes the "spec" of a Hydra component schematic. -/
structure Component where
  workload_type : String
  os_type : String
  arch : String
  parameters : List Parameter
  containers : List Container
  workload_settings : List WorkloadSetting

/-- `impl Default for Component`. -/
def Component.default : Component :=
  { workload_type := DEFAULT_WORKLOAD_TYPE
    os_type := "linux"
    arch := "amd64"
    parameters := []
    containers := []
    workload_settings := [] }

/-! Target Kubernetes types (`k8s_openapi::api::core::v1` and
`apimachinery`), restricted to the fields the source constructs or defaults.
Fields the source fills with `..Default::default()` carry a default value
here; optional fields of the Kubernetes API are `Option`. -/

namespace Core

/-- `apimachinery::pkg::api::resource::Quantity` — a string newtype. -/
structure Quantity where
  val : String
  deriving DecidableEq

/-- `apimachinery::pkg::util::intstr::IntOrString`; `int` is the `Int`
variant and `str` the `String` (named-port) variant of the Rust enum. -/
inductive IntOrString where
  | int (i : Int)
  | str (s : String)
  deriving DecidableEq

/-- `core::v1::EnvVarSource`; the source only ever stores `None` at this type,
so its fields are irrelevant and omitted. -/
structure EnvVarSource where
  deriving DecidableEq

/-- `core::v1::EnvVar`. -/
structure EnvVar where
  name : String
  value : Option String
  value_from : Option EnvVarSource
  deriving DecidableEq

/-- `core::v1::ContainerPort`; the fields beyond the three the source sets are
left at their `Default::default()` of `None`. -/
structure ContainerPort where
  container_port : Int
  name : Option String
  protocol : Option String
  host_ip : Option String := none
  host_port : Option Int := none
  deriving DecidableEq

/-- `core::v1::HTTPHeader`. -/
structure HTTPHeader where
  name : String
  value : String
  deriving DecidableEq

/-- `core::v1::ExecAction`. -/
structure ExecAction where
  command : Option (List String)
  deriving DecidableEq

/-- `core::v1::HTTPGetAction`; `host` and `scheme` are left at their
`Default::default()` of `None`. -/
structure HTTPGetAction where
  http_headers : Option (List HTTPHeader)
  path : Option String
  port : IntOrString
  host : Option String := none
  scheme : Option String := none
  deriving DecidableEq

/-- `core::v1::TCPSocketAction`; `host` is left at its default of `None`. -/
structure TCPSocketAction where
  port : IntOrString
  host : Option String := none
  deriving DecidableEq

/-- `core::v1::Probe`. -/
structure Probe where
  failure_threshold : Option Int
  period_seconds : Option Int
  timeout_seconds : Option Int
  success_threshold : Option Int
  initial_delay_seconds : Option Int
  exec : Option ExecAction
  http_get : Option HTTPGetAction
  tcp_socket : Option TCPSocketAction
  deriving DecidableEq

/-- `core::v1::ResourceRequirements`; `BTreeMap<String, Quantity>` is an
association list in ascending key order. -/
structure ResourceRequirements where
  limits : Option (List (String × Quantity))
  requests : Option (List (String × Quantity))
  deriving DecidableEq

/-- `core::v1::Container`, restricted to the fields the source sets; the many
remaining pod-container fields are filled by `..Default::default()` with `None`
and are never read. -/
structure Container where
  name : String
  image : Option String
  resources : Option ResourceRequirements
  ports : Option (List ContainerPort)
  env : Option (List EnvVar)
  liveness_probe : Option Probe
  readiness_probe : Option Probe
  deriving DecidableEq

/-- `core::v1::PodSpec`, restricted to the one field the source sets; the
remaining fields are filled by `..Default::default()` and never read. -/
structure PodSpec where
  containers : List Container
  deriving DecidableEq

end Core

/-- `Env::to_env_var`. The FIXME in the source (`fromParam` support) is the
declared-but-unimplemented substitution path: `from_param` is simply unused. -/
def Env.to_env_var (e : Env) : Core.EnvVar :=
  { name := e.name
    value := e.value
    value_from := none }

/-- `Port::to_container_port`. -/
def Port.to_container_port (p : Port) : Core.ContainerPort :=
  { container_port := p.container_port
    name := some p.name
    protocol := some p.protocol.to_string }

/-- `HttpHeader::to_kube_header`. -/
def HttpHeader.to_kube_header (h : HttpHeader) : Core.HTTPHeader :=
  { name := h.name
    value := h.value }

/-- `HttpGet::to_http_get_action`. -/
def HttpGet.to_http_get_action (h : HttpGet) : Core.HTTPGetAction :=
  { http_headers := some (h.http_headers.map HttpHeader.to_kube_header)
    path := some h.path
    port := Core.IntOrString.int h.port }

/-- `TcpSocket::to_tcp_socket_action`. -/
def TcpSocket.to_tcp_socket_action (t : TcpSocket) : Core.TCPSocketAction :=
  { port := Core.IntOrString.int t.port }

/-- `HealthProbe::to_probe`. The Rust `x.clone().and_then(|v| Some(f v))`
pattern is `Option.bind` with a `some` result. -/
def HealthProbe.to_probe (p : HealthProbe) : Core.Probe :=
  { failure_threshold := some p.failure_threshold
    period_seconds := some p.period_seconds
    timeout_seconds := some p.timeout_seconds
    success_threshold := some p.success_threshold
    initial_delay_seconds := some p.initial_delay_seconds
    exec := p.exec.bind (fun c => some { command := some c.command })
    http_get := p.http_get.bind (fun a => some a.to_http_get_action)
    tcp_socket := p.tcp_socket.bind (fun t => some t.to_tcp_socket_action) }

/-- `Resources::to_resource_requirements`. The source builds a `BTreeMap` by
inserting key "cpu" then key "memory"; as an ascending-key association list
that map is exactly the two-element list below. -/
def Resources.to_resource_requirements (r : Resources) : Core.ResourceRequirements :=
  { requests := some [("cpu", { val := r.cpu.required }), ("memory", { val := r.memory.required })]
    limits := none }

/-- The per-container closure inside `Component::to_pod_spec`. -/
def Container.to_core_container (c : Container) : Core.Container :=
  { name := c.name
    image := some c.image
    resources := some c.resources.to_resource_requirements
    ports := some (c.ports.map Port.to_container_port)
    env := some (c.env.map Env.to_env_var)
    liveness_probe := c.liveness_probe.bind (fun p => some p.to_probe)
    readiness_probe := c.readiness_probe.bind (fun p => some p.to_probe) }

/-- `Component::to_pod_spec` generates a pod specification. -/
def Component.to_pod_spec (c : Component) : Core.PodSpec :=
  { containers := c.containers.map Container.to_core_container }

/-- GroupVersionKind represents a fully qualified identifier for a resource
type: group, version and kind. -/
structure GroupVersionKind where
  group : String
  version : String
  kind : String
  deriving DecidableEq

/-- `GroupVersionKind::new`: direct construction, no validation. -/
def GroupVersionKind.new (group version kind : String) : GroupVersionKind :=
  { group := group, version := version, kind := kind }

/-- Rust `str::splitn(2, sep)` for a one-character separator: `none` when the
separator does not occur (splitn yields a single part), otherwise the text
before and after the first occurrence (splitn yields exactly two parts). -/
def splitFirst (c : Char) : List Char → Option (List Char × List Char)
  | [] => none
  | x :: xs =>
    if x = c then some ([], xs)
    else (splitFirst c xs).map (fun p => (x :: p.1, p.2))

/-- `GroupVersionKind::from_str`: split on the first `/`, then split the
remainder on the first `.`. -/
def GroupVersionKind.from_str (gvp : String) : Except String GroupVersionKind :=
  match splitFirst '/' gvp.data with
  | none => Except.error "missing version and kind"
  | some (g, rest) =>
    match splitFirst '.' rest with
    | none => Except.error "missing kind"
    | some (v, k) =>
      Except.ok { group := String.mk g, version := String.mk v, kind := String.mk k }

/-! Serialization layer: the semantics of the serde derives on the schematic
types, at the structured-value (`Json`) level. Encoders emit every field in
declaration order under its camelCase wire name (`Option` as `null` when
absent, exactly as serde does without `skip_serializing_if`); decoders look
fields up by wire name, applying the `serde(default)` attributes and the
`Option` absent-or-null rule, and ignoring unknown fields. -/

/-- Field lookup in a JSON object (serde matches fields by name; serde_json
objects carry each key once, so first-match lookup is faithful). -/
def lookupField (fields : List (String × Json)) (key : String) : Option Json :=
  match fields with
  | [] => none
  | (k, v) :: rest => if k == key then some v else lookupField rest key

/-- The i32 range check serde_json performs when decoding into an `i32`. -/
def isI32 (n : Int) : Bool :=
  decide (-2147483648 ≤ n) && decide (n < 2147483648)

/-- Decode a JSON string. -/
def decodeString : Json → Except String String
  | Json.str s => Except.ok s
  | _ => Except.error "expected a string"

/-- Decode a JSON boolean. -/
def decodeBool : Json → Except String Bool
  | Json.bool b => Except.ok b
  | _ => Except.error "expected a boolean"

/-- Decode a JSON number into an i32, with the range check. -/
def decodeI32 : Json → Except String Int
  | Json.num n => if isI32 n then Except.ok n else Except.error "number out of range for i32"
  | _ => Except.error "expected an integer"

/-- Decode each element of a JSON array in order (serde `Vec` decoding). -/
def decodeElems {α : Type} (dec : Json → Except String α) : List Json → Except String (List α)
  | [] => Except.ok []
  | j :: rest => do
    let x ← dec j
    let xs ← decodeElems dec rest
    Except.ok (x :: xs)

/-- Decode a JSON array (serde `Vec`). -/
def decodeList {α : Type} (dec : Json → Except String α) : Json → Except String (List α)
  | Json.arr items => decodeElems dec items
  | _ => Except.error "expected an array"

/-- A required struct field: missing is an error (serde, no default). -/
def reqField {α : Type} (fields : List (String × Json)) (key : String)
    (dec : Json → Except String α) : Except String α :=
  match lookupField fields key with
  | some j => dec j
  | none => Except.error ("missing field " ++ key)

/-- serde `Option` value decoding: `null` is `none`, anything else decodes
through the inner type. -/
def decodeOptVal {α : Type} (dec : Json → Except String α) : Json → Except String (Option α)
  | Json.null => Except.ok none
  | j => (dec j).map some

/-- An `Option` struct field: missing or `null` is `none` (serde `Option`). -/
def optField {α : Type} (fields : List (String × Json)) (key : String)
    (dec : Json → Except String α) : Except String (Option α) :=
  match lookupField fields key with
  | none => Except.ok none
  | some j => decodeOptVal dec j

/-- A defaulted struct field: missing yields the default (serde
field-level or struct-level `serde(default)`). -/
def defField {α : Type} (fields : List (String × Json)) (key : String)
    (dec : Json → Except String α) (dflt : α) : Except String α :=
  match lookupField fields key with
  | none => Except.ok dflt
  | some j => dec j

/-- Encode an `Option` field value (serde: `None` serializes as `null`). -/
def encodeOpt {α : Type} (enc : α → Json) : Option α → Json
  | none => Json.null
  | some x => enc x

/-- Wire tokens of `ParameterType` under `rename_all = "camelCase"`. -/
def parameterTypeWire : ParameterType → String
  | ParameterType.Boolean => "boolean"
  | ParameterType.String => "string"
  | ParameterType.Number => "number"
  | ParameterType.Null => "null"

/-- Serialize a `ParameterType` (serde unit enum variant → string token). -/
def encodeParameterType (t : ParameterType) : Json := Json.str (parameterTypeWire t)

/-- Deserialize a `ParameterType`; unknown tokens are an error. -/
def decodeParameterType : Json → Except String ParameterType
  | Json.str "boolean" => Except.ok ParameterType.Boolean
  | Json.str "string" => Except.ok ParameterType.String
  | Json.str "number" => Except.ok ParameterType.Number
  | Json.str "null" => Except.ok ParameterType.Null
  | _ => Except.error "unknown variant of ParameterType"

/-- Wire tokens of `AccessMode` under `rename_all = "UPPERCASE"`. -/
def AccessMode.wire : AccessMode → String
  | AccessMode.RW => "RW"
  | AccessMode.RO => "RO"

/-- Serialize an `AccessMode`. -/
def encodeAccessMode (m : AccessMode) : Json := Json.str m.wire

/-- Deserialize an `AccessMode`; unknown tokens are an error. -/
def decodeAccessMode : Json → Except String AccessMode
  | Json.str "RW" => Except.ok AccessMode.RW
  | Json.str "RO" => Except.ok AccessMode.RO
  | _ => Except.error "unknown variant of AccessMode"

/-- Wire tokens of `SharingPolicy` (no rename attribute: variant names). -/
def SharingPolicy.wire : SharingPolicy → String
  | SharingPolicy.Shared => "Shared"
  | SharingPolicy.Exclusive => "Exclusive"

/-- Serialize a `SharingPolicy`. -/
def encodeSharingPolicy (p : SharingPolicy) : Json := Json.str p.wire

/-- Deserialize a `SharingPolicy`; unknown tokens are an error. -/
def decodeSharingPolicy : Json → Except String SharingPolicy
  | Json.str "Shared" => Except.ok SharingPolicy.Shared
  | Json.str "Exclusive" => Except.ok SharingPolicy.Exclusive
  | _ => Except.error "unknown variant of SharingPolicy"

/-- Wire tokens of `PortProtocol` under `rename_all = "UPPERCASE"`. -/
def PortProtocol.wire : PortProtocol → String
  | PortProtocol.TCP => "TCP"
  | PortProtocol.UDP => "UDP"
  | PortProtocol.SCTP => "SCTP"

/-- Serialize a `PortProtocol`. -/
def encodePortProtocol (p : PortProtocol) : Json := Json.str p.wire

/-- Deserialize a `PortProtocol`; unknown tokens are an error. -/
def decodePortProtocol : Json → Except String PortProtocol
  | Json.str "TCP" => Except.ok PortProtocol.TCP
  | Json.str "UDP" => Except.ok PortProtocol.UDP
  | Json.str "SCTP" => Except.ok PortProtocol.SCTP
  | _ => Except.error "unknown variant of PortProtocol"

/-- Serialize a `CPU`. -/
def encodeCPU (c : CPU) : Json := Json.obj [("required", Json.str c.required)]

/-- Deserialize a `CPU`. -/
def decodeCPU : Json → Except String CPU
  | Json.obj fields => do
    let r ← reqField fields "required" decodeString
    Except.ok { required := r }
  | _ => Except.error "expected an object for CPU"

/-- Serialize a `Memory`. -/
def encodeMemory (m : Memory) : Json := Json.obj [("required", Json.str m.required)]

/-- Deserialize a `Memory`. -/
def decodeMemory : Json → Except String Memory
  | Json.obj fields => do
    let r ← reqField fields "required" decodeString
    Except.ok { required := r }
  | _ => Except.error "expected an object for Memory"

/-- Serialize a `GPU`. -/
def encodeGPU (g : GPU) : Json := Json.obj [("required", Json.str g.required)]

/-- Deserialize a `GPU`. -/
def decodeGPU : Json → Except String GPU
  | Json.obj fields => do
    let r ← reqField fields "required" decodeString
    Except.ok { required := r }
  | _ => Except.error "expected an object for GPU"

/-- Serialize a `Path` (camelCase wire names). -/
def encodePath (p : Path) : Json :=
  Json.obj
    [("name", Json.str p.name),
     ("path", Json.str p.path),
     ("accessMode", encodeAccessMode p.access_mode),
     ("sharingPolicy", encodeSharingPolicy p.sharing_policy)]

/-- Deserialize a `Path`: `accessMode` and `sharingPolicy` carry field-level
`serde(default)`. -/
def decodePath : Json → Except String Path
  | Json.obj fields => do
    let n ← reqField fields "name" decodeString
    let pa ← reqField fields "path" decodeString
    let am ← defField fields "accessMode" decodeAccessMode AccessMode.default
    let sp ← defField fields "sharingPolicy" decodeSharingPolicy SharingPolicy.default
    Except.ok { name := n, path := pa, access_mode := am, sharing_policy := sp }
  | _ => Except.error "expected an object for Path"

/-- Serialize a `Resources`. -/
def encodeResources (r : Resources) : Json :=
  Json.obj
    [("cpu", encodeCPU r.cpu),
     ("memory", encodeMemory r.memory),
     ("gpu", encodeGPU r.gpu),
     ("paths", Json.arr (r.paths.map encodePath))]

/-- Deserialize a `Resources`: the struct carries struct-level
`serde(default)`, so each missing field takes its value from
`Resources.default`. -/
def decodeResources : Json → Except String Resources
  | Json.obj fields => do
    let c ← defField fields "cpu" decodeCPU Resources.default.cpu
    let m ← defField fields "memory" decodeMemory Resources.default.memory
    let g ← defField fields "gpu" decodeGPU Resources.default.gpu
    let ps ← defField fields "paths" (decodeList decodePath) Resources.default.paths
    Except.ok { cpu := c, memory := m, gpu := g, paths := ps }
  | _ => Except.error "expected an object for Resources"

/-- Serialize an `Exec`. -/
def encodeExec (e : Exec) : Json :=
  Json.obj [("command", Json.arr (e.command.map Json.str))]

/-- Deserialize an `Exec`. -/
def decodeExec : Json → Except String Exec
  | Json.obj fields => do
    let c ← reqField fields "command" (decodeList decodeString)
    Except.ok { command := c }
  | _ => Except.error "expected an object for Exec"

/-- Serialize an `HttpHeader`. -/
def encodeHttpHeader (h : HttpHeader) : Json :=
  Json.obj [("name", Json.str h.name), ("value", Json.str h.value)]

/-- Deserialize an `HttpHeader`. -/
def decodeHttpHeader : Json → Except String HttpHeader
  | Json.obj fields => do
    let n ← reqField fields "name" decodeString
    let v ← reqField fields "value" decodeString
    Except.ok { name := n, value := v }
  | _ => Except.error "expected an object for HttpHeader"

/-- Serialize an `HttpGet`. -/
def encodeHttpGet (h : HttpGet) : Json :=
  Json.obj
    [("path", Json.str h.path),
     ("port", Json.num h.port),
     ("httpHeaders", Json.arr (h.http_headers.map encodeHttpHeader))]

/-- Deserialize an `HttpGet`: all three fields are required (no defaults). -/
def decodeHttpGet : Json → Except String HttpGet
  | Json.obj fields => do
    let pa ← reqField fields "path" decodeString
    let po ← reqField fields "port" decodeI32
    let hs ← reqField fields "httpHeaders" (decodeList decodeHttpHeader)
    Except.ok { path := pa, port := po, http_headers := hs }
  | _ => Except.error "expected an object for HttpGet"

/-- Serialize a `TcpSocket`. -/
def encodeTcpSocket (t : TcpSocket) : Json :=
  Json.obj [("port", Json.num t.port)]

/-- Deserialize a `TcpSocket`. -/
def decodeTcpSocket : Json → Except String TcpSocket
  | Json.obj fields => do
    let p ← reqField fields "port" decodeI32
    Except.ok { port := p }
  | _ => Except.error "expected an object for TcpSocket"

/-- Serialize a `HealthProbe`. -/
def encodeHealthProbe (p : HealthProbe) : Json :=
  Json.obj
    [("exec", encodeOpt encodeExec p.exec),
     ("httpGet", encodeOpt encodeHttpGet p.http_get),
     ("tcpSocket", encodeOpt encodeTcpSocket p.tcp_socket),
     ("initialDelaySeconds", Json.num p.initial_delay_seconds),
     ("periodSeconds", Json.num p.period_seconds),
     ("timeoutSeconds", Json.num p.timeout_seconds),
     ("successThreshold", Json.num p.success_threshold),
     ("failureThreshold", Json.num p.failure_threshold)]

/-- Deserialize a `HealthProbe`: struct-level `serde(default)`, so each
missing field takes its value from `HealthProbe.default`. -/
def decodeHealthProbe : Json → Except String HealthProbe
  | Json.obj fields => do
    let e ← optField fields "exec" decodeExec
    let hg ← optField fields "httpGet" decodeHttpGet
    let ts ← optField fields "tcpSocket" decodeTcpSocket
    let ids ← defField fields "initialDelaySeconds" decodeI32 HealthProbe.default.initial_delay_seconds
    let ps ← defField fields "periodSeconds" decodeI32 HealthProbe.default.period_seconds
    let tos ← defField fields "timeoutSeconds" decodeI32 HealthProbe.default.timeout_seconds
    let st ← defField fields "successThreshold" decodeI32 HealthProbe.default.success_threshold
    let ft ← defField fields "failureThreshold" decodeI32 HealthProbe.default.failure_threshold
    Except.ok
      { exec := e, http_get := hg, tcp_socket := ts,
        initial_delay_seconds := ids, period_seconds := ps, timeout_seconds := tos,
        success_threshold := st, failure_threshold := ft }
  | _ => Except.error "expected an object for HealthProbe"

/-- Serialize an `Env`. -/
def encodeEnv (e : Env) : Json :=
  Json.obj
    [("name", Json.str e.name),
     ("value", encodeOpt Json.str e.value),
     ("fromParam", encodeOpt Json.str e.from_param)]

/-- Deserialize an `Env`. -/
def decodeEnv : Json → Except String Env
  | Json.obj fields => do
    let n ← reqField fields "name" decodeString
    let v ← optField fields "value" decodeString
    let fp ← optField fields "fromParam" decodeString
    Except.ok { name := n, value := v, from_param := fp }
  | _ => Except.error "expected an object for Env"

/-- Serialize a `Port`. -/
def encodePort (p : Port) : Json :=
  Json.obj
    [("name", Json.str p.name),
     ("containerPort", Json.num p.container_port),
     ("protocol", encodePortProtocol p.protocol)]

/-- Deserialize a `Port`: `protocol` carries field-level `serde(default)`. -/
def decodePort : Json → Except String Port
  | Json.obj fields => do
    let n ← reqField fields "name" decodeString
    let cp ← reqField fields "containerPort" decodeI32
    let pr ← defField fields "protocol" decodePortProtocol PortProtocol.default
    Except.ok { name := n, container_port := cp, protocol := pr }
  | _ => Except.error "expected an object for Port"

/-- Serialize a `Parameter`; `parameter_type` serializes under the reserved
wire name `type` (the serde rename on the field). -/
def encodeParameter (p : Parameter) : Json :=
  Json.obj
    [("name", Json.str p.name),
     ("description", encodeOpt Json.str p.description),
     ("type", encodeParameterType p.parameter_type),
     ("required", Json.bool p.required),
     ("default", encodeOpt (fun j => j) p.default)]

/-- Deserialize a `Parameter`: `name` and `type` are required, `required`
defaults to `default_required`, the rest are `Option` fields. -/
def decodeParameter : Json → Except String Parameter
  | Json.obj fields => do
    let n ← reqField fields "name" decodeString
    let d ← optField fields "description" decodeString
    let t ← reqField fields "type" decodeParameterType
    let r ← defField fields "required" decodeBool default_required
    let df ← optField fields "default" (fun j => Except.ok j)
    Except.ok { name := n, description := d, parameter_type := t, required := r, default := df }
  | _ => Except.error "expected an object for Parameter"

/-- Serialize a `WorkloadSetting`; `parameter_type` serializes under the
reserved wire name `type`. -/
def encodeWorkloadSetting (w : WorkloadSetting) : Json :=
  Json.obj
    [("name", Json.str w.name),
     ("description", encodeOpt Json.str w.description),
     ("type", encodeParameterType w.parameter_type),
     ("required", Json.bool w.required),
     ("default", encodeOpt (fun j => j) w.default),
     ("fromParam", encodeOpt Json.str w.from_param)]

/-- Deserialize a `WorkloadSetting`. -/
def decodeWorkloadSetting : Json → Except String WorkloadSetting
  | Json.obj fields => do
    let n ← reqField fields "name" decodeString
    let d ← optField fields "description" decodeString
    let t ← reqField fields "type" decodeParameterType
    let r ← defField fields "required" decodeBool default_required
    let df ← optField fields "default" (fun j => Except.ok j)
    let fp ← optField fields "fromParam" decodeString
    Except.ok
      { name := n, description := d, parameter_type := t, required := r,
        default := df, from_param := fp }
  | _ => Except.error "expected an object for WorkloadSetting"

/-- Serialize a `Container`. -/
def encodeContainer (c : Container) : Json :=
  Json.obj
    [("name", Json.str c.name),
     ("image", Json.str c.image),
     ("resources", encodeResources c.resources),
     ("env", Json.arr (c.env.map encodeEnv)),
     ("ports", Json.arr (c.ports.map encodePort)),
     ("livenessProbe", encodeOpt encodeHealthProbe c.liveness_probe),
     ("readinessProbe", encodeOpt encodeHealthProbe c.readiness_probe)]

/-- Deserialize a `Container`: `name` and `image` are required; `resources`,
`env` and `ports` carry field-level `serde(default)`; the probes are `Option`
fields. -/
def decodeContainer : Json → Except String Container
  | Json.obj fields => do
    let n ← reqField fields "name" decodeString
    let i ← reqField fields "image" decodeString
    let r ← defField fields "resources" decodeResources Resources.default
    let e ← defField fields "env" (decodeList decodeEnv) []
    let ps ← defField fields "ports" (decodeList decodePort) []
    let lp ← optField fields "livenessProbe" decodeHealthProbe
    let rp ← optField fields "readinessProbe" decodeHealthProbe
    Except.ok
      { name := n, image := i, resources := r, env := e, ports := ps,
        liveness_probe := lp, readiness_probe := rp }
  | _ => Except.error "expected an object for Container"

/-- Serialize a `Component`. -/
def encodeComponent (c : Component) : Json :=
  Json.obj
    [("workloadType", Json.str c.workload_type),
     ("osType", Json.str c.os_type),
     ("arch", Json.str c.arch),
     ("parameters", Json.arr (c.parameters.map encodeParameter)),
     ("containers", Json.arr (c.containers.map encodeContainer)),
     ("workloadSettings", Json.arr (c.workload_settings.map encodeWorkloadSetting))]

/-- Deserialize a `Component`: struct-level `serde(default)`, so each missing
field takes its value from `Component.default`. This is the value-level
content of `Component::from_str` (text-level JSON syntax is serde_json's). -/
def decodeComponent : Json → Except String Component
  | Json.obj fields => do
    let wt ← defField fields "workloadType" decodeString Component.default.workload_type
    let os ← defField fields "osType" decodeString Component.default.os_type
    let a ← defField fields "arch" decodeString Component.default.arch
    let ps ← defField fields "parameters" (decodeList decodeParameter) []
    let cs ← defField fields "containers" (decodeList decodeContainer) []
    let ws ← defField fields "workloadSettings" (decodeList decodeWorkloadSetting) []
    Except.ok
      { workload_type := wt, os_type := os, arch := a,
        parameters := ps, containers := cs, workload_settings := ws }
  | _ => Except.error "expected an object for Component"

/-! Well-formedness: the facts the Rust type system guarantees about any
value of the schematic types and that the `Int`-based embedding states
explicitly — every `i32` field lies in the i32 range — plus, for the
round-trip development, the observation that an explicit JSON `null` stored
in an `Option<serde_json::Value>` field is indistinguishable on the wire
from an absent value. -/

/-- All `i32` fields of the Rust value are in range (true of every Rust
`Port`). -/
def wfPort (p : Port) : Bool := isI32 p.container_port

/-- All `i32` fields in range. -/
def wfHttpGet (h : HttpGet) : Bool := isI32 h.port

/-- All `i32` fields in range. -/
def wfTcpSocket (t : TcpSocket) : Bool := isI32 t.port

/-- All `i32` fields in range. -/
def wfHealthProbe (p : HealthProbe) : Bool :=
  p.http_get.all wfHttpGet && p.tcp_socket.all wfTcpSocket &&
  isI32 p.initial_delay_seconds && isI32 p.period_seconds && isI32 p.timeout_seconds &&
  isI32 p.success_threshold && isI32 p.failure_threshold

/-- All `i32` fields in range. -/
def wfContainer (c : Container) : Bool :=
  c.ports.all wfPort && c.liveness_probe.all wfHealthProbe &&
  c.readiness_probe.all wfHealthProbe

/-- The `default` value, when present, is not the bare JSON `null` (serde
deserializes an explicit `null` into an `Option<Value>` field as `None`). -/
def wfParameter (p : Parameter) : Bool :=
  match p.default with
  | some Json.null => false
  | _ => true

/-- Same condition as `wfParameter`. -/
def wfWorkloadSetting (w : WorkloadSetting) : Bool :=
  match w.default with
  | some Json.null => false
  | _ => true

/-- Well-formed component: i32 fields in range everywhere and no explicit
JSON `null` stored in a `default` field. -/
def wfComponent (c : Component) : Bool :=
  c.parameters.all wfParameter && c.containers.all wfContainer &&
  c.workload_settings.all wfWorkloadSetting

/-! Round-trip infrastructure. -/

theorem okBind {α β : Type} (a : α) (f : α → Except String β) :
    (Except.ok a : Except String α) >>= f = f a := rfl

theorem decodeI32_num (n : Int) (h : isI32 n = true) :
    decodeI32 (Json.num n) = Except.ok n := by
  simp [decodeI32, h]

theorem rt_parameterType (t : ParameterType) :
    decodeParameterType (encodeParameterType t) = Except.ok t := by
  cases t <;> rfl

theorem rt_accessMode (m : AccessMode) :
    decodeAccessMode (encodeAccessMode m) = Except.ok m := by
  cases m <;> rfl

theorem rt_sharingPolicy (p : SharingPolicy) :
    decodeSharingPolicy (encodeSharingPolicy p) = Except.ok p := by
  cases p <;> rfl

theorem rt_portProtocol (p : PortProtocol) :
    decodePortProtocol (encodePortProtocol p) = Except.ok p := by
  cases p <;> rfl

theorem decodeOptVal_encodeOpt {α : Type} (enc : α → Json) (dec : Json → Except String α)
    (o : Option α) (h : ∀ x, o = some x → dec (enc x) = Except.ok x)
    (hn : ∀ x, o = some x → enc x ≠ Json.null) :
    decodeOptVal dec (encodeOpt enc o) = Except.ok o := by
  cases o with
  | none => rfl
  | some x =>
    have hx := h x rfl
    have hnx := hn x rfl
    cases hex : enc x <;> rw [hex] at hx <;> simp_all [decodeOptVal, encodeOpt, Except.map]

theorem rt_optStr (o : Option String) :
    decodeOptVal decodeString (encodeOpt Json.str o) = Except.ok o := by
  apply decodeOptVal_encodeOpt
  · intro x _; rfl
  · intro x _; intro hc; cases hc

theorem rt_elems {α : Type} (enc : α → Json) (dec : Json → Except String α)
    (xs : List α) (h : ∀ x ∈ xs, dec (enc x) = Except.ok x) :
    decodeElems dec (xs.map enc) = Except.ok xs := by
  induction xs with
  | nil => rfl
  | cons a as ih =>
    have ha : dec (enc a) = Except.ok a := h a (List.mem_cons_self a as)
    have has : decodeElems dec (as.map enc) = Except.ok as :=
      ih (fun x hx => h x (List.mem_cons_of_mem a hx))
    simp [decodeElems, ha, has, okBind]

theorem rt_list {α : Type} (enc : α → Json) (dec : Json → Except String α)
    (xs : List α) (h : ∀ x ∈ xs, dec (enc x) = Except.ok x) :
    decodeList dec (Json.arr (xs.map enc)) = Except.ok xs := by
  simpa [decodeList] using rt_elems enc dec xs h

theorem rt_cpu (c : CPU) : decodeCPU (encodeCPU c) = Except.ok c := rfl

theorem rt_memory (m : Memory) : decodeMemory (encodeMemory m) = Except.ok m := rfl

theorem rt_gpu (g : GPU) : decodeGPU (encodeGPU g) = Except.ok g := rfl

theorem rt_path (p : Path) : decodePath (encodePath p) = Except.ok p := by
  obtain ⟨n, pa, am, sp⟩ := p
  simp [encodePath, decodePath, reqField, defField, lookupField, decodeString,
    rt_accessMode, rt_sharingPolicy, okBind]

theorem rt_resources (r : Resources) : decodeResources (encodeResources r) = Except.ok r := by
  obtain ⟨c, m, g, ps⟩ := r
  have hps : decodeList decodePath (Json.arr (ps.map encodePath)) = Except.ok ps :=
    rt_list encodePath decodePath ps (fun x _ => rt_path x)
  simp [encodeResources, decodeResources, reqField, defField, lookupField,
    rt_cpu, rt_memory, rt_gpu, hps, okBind]

theorem rt_exec (e : Exec) : decodeExec (encodeExec e) = Except.ok e := by
  obtain ⟨cmd⟩ := e
  have hc : decodeList decodeString (Json.arr (cmd.map Json.str)) = Except.ok cmd :=
    rt_list Json.str decodeString cmd (fun x _ => rfl)
  simp [encodeExec, decodeExec, reqField, lookupField, hc, okBind]

theorem rt_httpHeader (h : HttpHeader) : decodeHttpHeader (encodeHttpHeader h) = Except.ok h := rfl

theorem rt_httpGet (h : HttpGet) (hw : wfHttpGet h = true) :
    decodeHttpGet (encodeHttpGet h) = Except.ok h := by
  obtain ⟨pa, po, hs⟩ := h
  have h32 : isI32 po = true := hw
  have hhs : decodeList decodeHttpHeader (Json.arr (hs.map encodeHttpHeader)) = Except.ok hs :=
    rt_list encodeHttpHeader decodeHttpHeader hs (fun x _ => rt_httpHeader x)
  simp [encodeHttpGet, decodeHttpGet, reqField, lookupField, decodeString,
    decodeI32_num _ h32, hhs, okBind]

theorem rt_tcpSocket (t : TcpSocket) (hw : wfTcpSocket t = true) :
    decodeTcpSocket (encodeTcpSocket t) = Except.ok t := by
  obtain ⟨po⟩ := t
  have h32 : isI32 po = true := hw
  simp [encodeTcpSocket, decodeTcpSocket, reqField, lookupField, decodeI32_num _ h32, okBind]

theorem encodeExec_ne_null (e : Exec) : encodeExec e ≠ Json.null := by
  simp [encodeExec]

theorem encodeHttpGet_ne_null (h : HttpGet) : encodeHttpGet h ≠ Json.null := by
  simp [encodeHttpGet]

theorem encodeTcpSocket_ne_null (t : TcpSocket) : encodeTcpSocket t ≠ Json.null := by
  simp [encodeTcpSocket]

theorem rt_healthProbe (p : HealthProbe) (hw : wfHealthProbe p = true) :
    decodeHealthProbe (encodeHealthProbe p) = Except.ok p := by
  obtain ⟨e, hg, ts, ids, ps, tos, st, ft⟩ := p
  simp only [wfHealthProbe, Bool.and_eq_true] at hw
  obtain ⟨⟨⟨⟨⟨⟨hhg, hts⟩, hids⟩, hps⟩, htos⟩, hst⟩, hft⟩ := hw
  have he : decodeOptVal decodeExec (encodeOpt encodeExec e) = Except.ok e :=
    decodeOptVal_encodeOpt _ _ _ (fun x _ => rt_exec x) (fun x _ => encodeExec_ne_null x)
  have hhg2 : decodeOptVal decodeHttpGet (encodeOpt encodeHttpGet hg) = Except.ok hg := by
    apply decodeOptVal_encodeOpt
    · intro x hx
      apply rt_httpGet
      rw [hx] at hhg
      simpa [Option.all] using hhg
    · intro x _; exact encodeHttpGet_ne_null x
  have hts2 : decodeOptVal decodeTcpSocket (encodeOpt encodeTcpSocket ts) = Except.ok ts := by
    apply decodeOptVal_encodeOpt
    · intro x hx
      apply rt_tcpSocket
      rw [hx] at hts
      simpa [Option.all] using hts
    · intro x _; exact encodeTcpSocket_ne_null x
  simp [encodeHealthProbe, decodeHealthProbe, reqField, defField, optField, lookupField,
    he, hhg2, hts2, decodeI32_num _ hids, decodeI32_num _ hps, decodeI32_num _ htos,
    decodeI32_num _ hst, decodeI32_num _ hft, okBind]

theorem rt_env (e : Env) : decodeEnv (encodeEnv e) = Except.ok e := by
  obtain ⟨n, v, fp⟩ := e
  simp [encodeEnv, decodeEnv, reqField, optField, lookupField, decodeString, rt_optStr, okBind]

theorem rt_port (p : Port) (hw : wfPort p = true) : decodePort (encodePort p) = Except.ok p := by
  obtain ⟨n, cp, pr⟩ := p
  have h32 : isI32 cp = true := hw
  simp [encodePort, decodePort, reqField, defField, lookupField, decodeString,
    decodeI32_num _ h32, rt_portProtocol, okBind]

theorem rt_parameter (p : Parameter) (hw : wfParameter p = true) :
    decodeParameter (encodeParameter p) = Except.ok p := by
  obtain ⟨n, d, t, r, df⟩ := p
  have hdf : decodeOptVal (fun j => Except.ok j) (encodeOpt (fun j => j) df) = Except.ok df := by
    apply decodeOptVal_encodeOpt
    · intro x _; rfl
    · intro x hx hnull
      rw [hx, hnull] at hw
      simp [wfParameter] at hw
  simp [encodeParameter, decodeParameter, reqField, defField, optField, lookupField,
    decodeString, decodeBool, rt_parameterType, rt_optStr, hdf, okBind]

theorem rt_workloadSetting (w : WorkloadSetting) (hw : wfWorkloadSetting w = true) :
    decodeWorkloadSetting (encodeWorkloadSetting w) = Except.ok w := by
  obtain ⟨n, d, t, r, df, fp⟩ := w
  have hdf : decodeOptVal (fun j => Except.ok j) (encodeOpt (fun j => j) df) = Except.ok df := by
    apply decodeOptVal_encodeOpt
    · intro x _; rfl
    · intro x hx hnull
      rw [hx, hnull] at hw
      simp [wfWorkloadSetting] at hw
  simp [encodeWorkloadSetting, decodeWorkloadSetting, reqField, defField, optField,
    lookupField, decodeString, decodeBool, rt_parameterType, rt_optStr, hdf, okBind]

theorem rt_container (c : Container) (hw : wfContainer c = true) :
    decodeContainer (encodeContainer c) = Except.ok c := by
  obtain ⟨n, i, r, e, ps, lp, rp⟩ := c
  simp only [wfContainer, Bool.and_eq_true] at hw
  obtain ⟨⟨hps, hlp⟩, hrp⟩ := hw
  have hr := rt_resources r
  have he : decodeList decodeEnv (Json.arr (e.map encodeEnv)) = Except.ok e :=
    rt_list encodeEnv decodeEnv e (fun x _ => rt_env x)
  have hps2 : decodeList decodePort (Json.arr (ps.map encodePort)) = Except.ok ps :=
    rt_list encodePort decodePort ps (fun x hx => rt_port x (List.all_eq_true.mp hps x hx))
  have hlp2 : decodeOptVal decodeHealthProbe (encodeOpt encodeHealthProbe lp) = Except.ok lp := by
    apply decodeOptVal_encodeOpt
    · intro x hx
      apply rt_healthProbe
      rw [hx] at hlp
      simpa [Option.all] using hlp
    · intro x _; simp [encodeHealthProbe]
  have hrp2 : decodeOptVal decodeHealthProbe (encodeOpt encodeHealthProbe rp) = Except.ok rp := by
    apply decodeOptVal_encodeOpt
    · intro x hx
      apply rt_healthProbe
      rw [hx] at hrp
      simpa [Option.all] using hrp
    · intro x _; simp [encodeHealthProbe]
  simp [encodeContainer, decodeContainer, reqField, defField, optField, lookupField,
    decodeString, hr, he, hps2, hlp2, hrp2, okBind]

theorem rt_component (c : Component) (hw : wfComponent c = true) :
    decodeComponent (encodeComponent c) = Except.ok c := by
  obtain ⟨wt, os, a, ps, cs, ws⟩ := c
  simp only [wfComponent, Bool.and_eq_true] at hw
  obtain ⟨⟨hps, hcs⟩, hws⟩ := hw
  have hps2 : decodeList decodeParameter (Json.arr (ps.map encodeParameter)) = Except.ok ps :=
    rt_list encodeParameter decodeParameter ps
      (fun x hx => rt_parameter x (List.all_eq_true.mp hps x hx))
  have hcs2 : decodeList decodeContainer (Json.arr (cs.map encodeContainer)) = Except.ok cs :=
    rt_list encodeContainer decodeContainer cs
      (fun x hx => rt_container x (List.all_eq_true.mp hcs x hx))
  have hws2 : decodeList decodeWorkloadSetting (Json.arr (ws.map encodeWorkloadSetting)) = Except.ok ws :=
    rt_list encodeWorkloadSetting decodeWorkloadSetting ws
      (fun x hx => rt_workloadSetting x (List.all_eq_true.mp hws x hx))
  simp [encodeComponent, decodeComponent, reqField, defField, lookupField,
    decodeString, hps2, hcs2, hws2, okBind]

/-! Facts about `splitFirst`, needed to settle the GroupVersionKind claims. -/

theorem splitFirst_not_mem (c : Char) (xs : List Char) (h : c ∉ xs) :
    splitFirst c xs = none := by
  induction xs with
  | nil => rfl
  | cons x rest ih =>
    have hx : ¬ x = c := by
      intro he
      exact h (by rw [← he]; exact List.mem_cons_self x rest)
    have hrest : c ∉ rest := fun hr => h (List.mem_cons_of_mem x hr)
    simp [splitFirst, hx, ih hrest]

theorem splitFirst_append (c : Char) (pre post : List Char) (h : c ∉ pre) :
    splitFirst c (pre ++ c :: post) = some (pre, post) := by
  induction pre with
  | nil => simp [splitFirst]
  | cons x rest ih =>
    have hx : ¬ x = c := by
      intro he
      exact h (by rw [← he]; exact List.mem_cons_self x rest)
    have hrest : c ∉ rest := fun hr => h (List.mem_cons_of_mem x hr)
    simp [splitFirst, hx, ih hrest]

theorem splitFirst_mem (c : Char) (xs : List Char) (h : c ∈ xs) :
    ∃ pq, splitFirst c xs = some pq := by
  induction xs with
  | nil => cases h
  | cons x rest ih =>
    by_cases hx : x = c
    · exact ⟨([], rest), by simp [splitFirst, hx]⟩
    · have hmem : c ∈ rest := List.mem_of_ne_of_mem (fun he => hx he.symm) h
      obtain ⟨pq, hpq⟩ := ih hmem
      exact ⟨(x :: pq.1, pq.2), by simp [splitFirst, hx, hpq]⟩

/-! The claims. -/

/-- Claim C1: for every Container whose liveness (resp. readiness) probe is
present, the projected container's probe is present and carries all five
numeric tuning fields with the source values; each populated action kind
among exec, httpGet, tcpSocket is rendered into its corresponding target
action and each absent kind maps to no action; an absent source probe
projects to an absent probe; httpGet.port and tcpSocket.port are encoded as
the integer variant of IntOrString, never the named-port variant. -/
theorem C1_probe_projection : ∀ (c : Container) (p : HealthProbe),
    c.to_core_container.liveness_probe = c.liveness_probe.map HealthProbe.to_probe
  ∧ c.to_core_container.readiness_probe = c.readiness_probe.map HealthProbe.to_probe
  ∧ p.to_probe.failure_threshold = some p.failure_threshold
  ∧ p.to_probe.period_seconds = some p.period_seconds
  ∧ p.to_probe.timeout_seconds = some p.timeout_seconds
  ∧ p.to_probe.success_threshold = some p.success_threshold
  ∧ p.to_probe.initial_delay_seconds = some p.initial_delay_seconds
  ∧ p.to_probe.exec = p.exec.map (fun c => { command := some c.command })
  ∧ p.to_probe.http_get = p.http_get.map HttpGet.to_http_get_action
  ∧ p.to_probe.tcp_socket = p.tcp_socket.map TcpSocket.to_tcp_socket_action
  ∧ (∀ hg : HttpGet, hg.to_http_get_action.port = Core.IntOrString.int hg.port)
  ∧ (∀ t : TcpSocket, t.to_tcp_socket_action.port = Core.IntOrString.int t.port) := by
  intro c p
  refine ⟨?_, ?_, rfl, rfl, rfl, rfl, rfl, ?_, ?_, ?_, fun hg => rfl, fun t => rfl⟩
  · cases hl : c.liveness_probe <;> simp [Container.to_core_container, hl]
  · cases hr : c.readiness_probe <;> simp [Container.to_core_container, hr]
  · cases he : p.exec <;> simp [HealthProbe.to_probe, he]
  · cases hh : p.http_get <;> simp [HealthProbe.to_probe, hh]
  · cases ht : p.tcp_socket <;> simp [HealthProbe.to_probe, ht]

/-- Claim C2: for every Resources value (hence for every Container), the
projected resource requirements have a requests map of exactly two entries —
"cpu" mapped to `resources.cpu.required` and "memory" mapped to
`resources.memory.required`, verbatim — limits is never set, and the gpu and
paths fields do not influence the output at all (the statement quantifies
over them). -/
theorem C2_resource_requests :
    ∀ (cpu : CPU) (mem : Memory) (gpu : GPU) (paths : List Path) (c : Container),
    (Resources.mk cpu mem gpu paths).to_resource_requirements
      = { requests := some [("cpu", { val := cpu.required }), ("memory", { val := mem.required })]
          limits := none }
  ∧ c.to_core_container.resources = some c.resources.to_resource_requirements := by
  intro cpu mem gpu paths c
  exact ⟨rfl, rfl⟩

/-- Claim C6: for every Container the projected container holds one target
port entry per source Port in the same order, with containerPort and name
copied and protocol rendered as the canonical uppercase token of the source
protocol; a Port with the default (unspecified) protocol projects to
protocol "TCP". -/
theorem C6_port_projection : ∀ (c : Container) (p : Port) (n : String) (cp : Int),
    c.to_core_container.ports = some (c.ports.map Port.to_container_port)
  ∧ p.to_container_port.container_port = p.container_port
  ∧ p.to_container_port.name = some p.name
  ∧ p.to_container_port.protocol = some p.protocol.as_str
  ∧ PortProtocol.TCP.as_str = "TCP"
  ∧ PortProtocol.UDP.as_str = "UDP"
  ∧ PortProtocol.SCTP.as_str = "SCTP"
  ∧ PortProtocol.default = PortProtocol.TCP
  ∧ (Port.mk n cp PortProtocol.default).to_container_port.protocol = some "TCP" := by
  intro c p n cp
  exact ⟨rfl, rfl, rfl, rfl, rfl, rfl, rfl, rfl, rfl⟩

/-- Claim C7: for every Container the projected container holds one
environment entry per source Env, in order, carrying the source name and the
source value (absent when absent); valueFrom is always absent; an Env whose
value is absent and whose fromParam is set still projects (totally) to an
inert entry with no value and no valueFrom. -/
theorem C7_env_projection : ∀ (c : Container) (e : Env) (n : String) (fp : Option String),
    c.to_core_container.env = some (c.env.map Env.to_env_var)
  ∧ e.to_env_var.name = e.name
  ∧ e.to_env_var.value = e.value
  ∧ e.to_env_var.value_from = none
  ∧ (Env.mk n none fp).to_env_var = { name := n, value := none, value_from := none } := by
  intro c e n fp
  exact ⟨rfl, rfl, rfl, rfl, rfl⟩

/-- Claim C8: `to_pod_spec` is a total, deterministic function of the
Component — it is a plain Lean function here, structurally equal inputs give
structurally identical outputs — and the output contains exactly one
container entry per source container in source order, with ports and env
likewise in source order. -/
theorem C8_projector_total : ∀ (comp comp' : Component),
    comp.to_pod_spec.containers = comp.containers.map Container.to_core_container
  ∧ comp.to_pod_spec.containers.length = comp.containers.length
  ∧ (comp = comp' → comp.to_pod_spec = comp'.to_pod_spec)
  ∧ (∀ c : Container,
        c.to_core_container.ports = some (c.ports.map Port.to_container_port)
      ∧ c.to_core_container.env = some (c.env.map Env.to_env_var)) := by
  intro comp comp'
  refine ⟨rfl, ?_, fun h => by rw [h], fun c => ⟨rfl, rfl⟩⟩
  simp [Component.to_pod_spec]

/-- Witness for C8 at a concrete pair of equal Components. -/
theorem C8_projector_total_witness :
    Component.default.to_pod_spec = Component.default.to_pod_spec :=
  (C8_projector_total Component.default Component.default).2.2.1 rfl

/-- Claim C4: for every input of shape `g ++ "/" ++ v ++ "." ++ k` with no
slash in `g` and no dot in `v`, parsing returns group `g`, version `v` and
kind `k` — dots in group and kind are preserved intact. -/
theorem C4_gvk_dots (g v k : List Char) (hg : '/' ∉ g) (hv : '.' ∉ v) :
    GroupVersionKind.from_str (String.mk (g ++ '/' :: (v ++ '.' :: k)))
      = Except.ok { group := String.mk g, version := String.mk v, kind := String.mk k } := by
  simp [GroupVersionKind.from_str, splitFirst_append '/' g (v ++ '.' :: k) hg,
    splitFirst_append '.' v k hv]

/-- Witness for C4 at the two inputs named by the claim. -/
theorem C4_gvk_dots_witness :
    GroupVersionKind.from_str "a.b.c/v1.Kind"
      = Except.ok { group := "a.b.c", version := "v1", kind := "Kind" }
  ∧ GroupVersionKind.from_str "g/v.K.x"
      = Except.ok { group := "g", version := "v", kind := "K.x" } :=
  ⟨C4_gvk_dots ['a', '.', 'b', '.', 'c'] ['v', '1'] ['K', 'i', 'n', 'd'] (by decide) (by decide),
   C4_gvk_dots ['g'] ['v'] ['K', '.', 'x'] (by decide) (by decide)⟩

/-- Claim C5: parsing fails exactly when a separator is absent, with a
message identifying which one — no slash gives "missing version and kind",
a slash whose remainder has no dot gives "missing kind", and in all other
cases parsing succeeds. -/
theorem C5_gvk_errors (s : String) :
    ('/' ∉ s.data → GroupVersionKind.from_str s = Except.error "missing version and kind")
  ∧ (∀ g rest, splitFirst '/' s.data = some (g, rest) →
      ('.' ∉ rest → GroupVersionKind.from_str s = Except.error "missing kind")
      ∧ ('.' ∈ rest → ∃ gvk, GroupVersionKind.from_str s = Except.ok gvk)) := by
  constructor
  · intro h
    simp [GroupVersionKind.from_str, splitFirst_not_mem '/' s.data h]
  · intro g rest hsplit
    constructor
    · intro h
      simp [GroupVersionKind.from_str, hsplit, splitFirst_not_mem '.' rest h]
    · intro h
      obtain ⟨⟨v, k⟩, hvk⟩ := splitFirst_mem '.' rest h
      exact ⟨{ group := String.mk g, version := String.mk v, kind := String.mk k },
        by simp [GroupVersionKind.from_str, hsplit, hvk]⟩

/-- Witness for C5 at the three inputs named by the spec. -/
theorem C5_gvk_errors_witness :
    GroupVersionKind.from_str "missing-slash" = Except.error "missing version and kind"
  ∧ GroupVersionKind.from_str "group/noversionkind" = Except.error "missing kind"
  ∧ (∃ gvk, GroupVersionKind.from_str "g/v.k" = Except.ok gvk) :=
  ⟨(C5_gvk_errors "missing-slash").1 (by decide),
   ((C5_gvk_errors "group/noversionkind").2
      ['g', 'r', 'o', 'u', 'p']
      ['n', 'o', 'v', 'e', 'r', 's', 'i', 'o', 'n', 'k', 'i', 'n', 'd']
      (by decide)).1 (by decide),
   ((C5_gvk_errors "g/v.k").2 ['g'] ['v', '.', 'k'] (by decide)).2 (by decide)⟩

/-- Claim C10: parsing accepts empty segments without validation — a leading
slash gives an empty group, `g/.k` an empty version, `g/v.` an empty kind —
while `g/` (nothing after the slash) fails with "missing kind", not
"missing version and kind". -/
theorem C10_gvk_empty_segments :
    GroupVersionKind.from_str "/v.k"
      = Except.ok { group := "", version := "v", kind := "k" }
  ∧ GroupVersionKind.from_str "g/.k"
      = Except.ok { group := "g", version := "", kind := "k" }
  ∧ GroupVersionKind.from_str "g/v."
      = Except.ok { group := "g", version := "v", kind := "" }
  ∧ GroupVersionKind.from_str "g/" = Except.error "missing kind" :=
  ⟨rfl, rfl, rfl, rfl⟩

/-- Claim C3: parsing an input that omits every optional field (supplying the
required ones) succeeds and yields the documented defaults: the Component
defaults (workloadType, osType, arch, empty collections), the Resources
defaults (cpu "1", memory "1G", gpu "0"), the five HealthProbe tuning
defaults, Port.protocol TCP and Path accessMode RW / sharingPolicy
Exclusive. -/
theorem C3_parse_defaults :
    (∀ (n : String) (cp : Int), isI32 cp = true →
      decodePort (Json.obj [("name", Json.str n), ("containerPort", Json.num cp)])
        = Except.ok { name := n, container_port := cp, protocol := PortProtocol.TCP })
  ∧ (∀ (n pa : String),
      decodePath (Json.obj [("name", Json.str n), ("path", Json.str pa)])
        = Except.ok { name := n, path := pa, access_mode := AccessMode.RW,
                      sharing_policy := SharingPolicy.Exclusive })
  ∧ decodeComponent (Json.obj []) = Except.ok Component.default
  ∧ Component.default.workload_type = "core.hydra.io/v1alpha1.Singleton"
  ∧ Component.default.os_type = "linux"
  ∧ Component.default.arch = "amd64"
  ∧ Component.default.parameters = []
  ∧ Component.default.containers = []
  ∧ Component.default.workload_settings = []
  ∧ decodeResources (Json.obj []) = Except.ok Resources.default
  ∧ Resources.default.cpu.required = "1"
  ∧ Resources.default.memory.required = "1G"
  ∧ Resources.default.gpu.required = "0"
  ∧ decodeHealthProbe (Json.obj []) = Except.ok HealthProbe.default
  ∧ HealthProbe.default.initial_delay_seconds = 0
  ∧ HealthProbe.default.period_seconds = 10
  ∧ HealthProbe.default.timeout_seconds = 1
  ∧ HealthProbe.default.success_threshold = 1
  ∧ HealthProbe.default.failure_threshold = 3 := by
  refine ⟨?_, fun n pa => rfl, rfl, rfl, rfl, rfl, rfl, rfl, rfl, rfl, rfl, rfl, rfl,
    rfl, rfl, rfl, rfl, rfl, rfl⟩
  intro n cp h
  simp [decodePort, reqField, defField, lookupField, decodeString, decodeI32_num _ h, okBind,
    PortProtocol.default]

/-- Witness for C3 at a concrete minimal Port input. -/
theorem C3_parse_defaults_witness :
    decodePort (Json.obj [("name", Json.str "http"), ("containerPort", Json.num 8080)])
      = Except.ok { name := "http", container_port := 8080, protocol := PortProtocol.TCP } :=
  C3_parse_defaults.1 "http" 8080 (by decide)

/-- A Component with every field explicitly set whose Parameter `default` is
the explicit JSON `null` — the value on which the wire round trip is lossy,
because serde deserializes an explicit `null` into an `Option<Value>` field
as `None`. -/
def nullDefaultComponent : Component :=
  { workload_type := "x.y/v1.Kind"
    os_type := "windows"
    arch := "arm64"
    parameters :=
      [{ name := "p1", description := some "d1", parameter_type := ParameterType.Number,
         required := true, default := some Json.null }]
    containers :=
      [{ name := "web", image := "nginx:latest", resources := Resources.default,
         env := [], ports := [], liveness_probe := none, readiness_probe := none }]
    workload_settings :=
      [{ name := "w1", description := some "wd", parameter_type := ParameterType.Boolean,
         required := false, default := some (Json.bool true), from_param := some "p1" }] }

/-- What the wire round trip actually returns for `nullDefaultComponent`:
identical except that the parameter default reads back as absent. -/
def nullDefaultComponentDecoded : Component :=
  { workload_type := "x.y/v1.Kind"
    os_type := "windows"
    arch := "arm64"
    parameters :=
      [{ name := "p1", description := some "d1", parameter_type := ParameterType.Number,
         required := true, default := none }]
    containers :=
      [{ name := "web", image := "nginx:latest", resources := Resources.default,
         env := [], ports := [], liveness_probe := none, readiness_probe := none }]
    workload_settings :=
      [{ name := "w1", description := some "wd", parameter_type := ParameterType.Boolean,
         required := false, default := some (Json.bool true), from_param := some "p1" }] }

/-- Claim C9 as stated fails on the code: a Component whose Parameter
`default` is explicitly set to the JSON `null` does not survive the round
trip (the default reads back as absent). -/
theorem C9_roundtrip_counterexample :
    decodeComponent (encodeComponent nullDefaultComponent)
      ≠ Except.ok nullDefaultComponent := by
  intro hEq
  have hval : decodeComponent (encodeComponent nullDefaultComponent)
      = Except.ok nullDefaultComponentDecoded := by rfl
  rw [hval] at hEq
  injection hEq with hc
  have hp := congrArg Component.parameters hc
  simp [nullDefaultComponent, nullDefaultComponentDecoded] at hp

/-- Claim C9 (amended): for every well-formed Component — i32 fields in the
i32 range, as the Rust types guarantee, and no Parameter or WorkloadSetting
`default` explicitly set to the bare JSON `null` — deserializing the
serialization reproduces the Component exactly; the reserved wire name
`type` carries `parameter_type` in both directions inside this round trip. -/
theorem C9_roundtrip (c : Component) (h : wfComponent c = true) :
    decodeComponent (encodeComponent c) = Except.ok c :=
  rt_component c h

/-- A Component with every field explicitly populated, used to witness the
round trip. -/
def fullComponent : Component :=
  { workload_type := "core.hydra.io/v1alpha1.Singleton"
    os_type := "linux"
    arch := "amd64"
    parameters :=
      [{ name := "p1", description := some "size", parameter_type := ParameterType.String,
         required := true, default := some (Json.str "small") }]
    containers :=
      [{ name := "web"
         image := "nginx:latest"
         resources :=
           { cpu := { required := "2" }, memory := { required := "512M" },
             gpu := { required := "1" },
             paths := [{ name := "data", path := "/data", access_mode := AccessMode.RO,
                         sharing_policy := SharingPolicy.Shared }] }
         env := [{ name := "LOG", value := some "info", from_param := none },
                 { name := "MODE", value := none, from_param := some "p1" }]
         ports := [{ name := "http", container_port := 8080, protocol := PortProtocol.UDP }]
         liveness_probe := some
           { exec := some { command := ["ls", "/"] }
             http_get := some { path := "/health", port := 80,
                                http_headers := [{ name := "X-A", value := "b" }] }
             tcp_socket := some { port := 5432 }
             initial_delay_seconds := 5, period_seconds := 20, timeout_seconds := 2,
             success_threshold := 2, failure_threshold := 4 }
         readiness_probe := some
           { exec := none, http_get := none, tcp_socket := some { port := 5432 }
             initial_delay_seconds := 1, period_seconds := 11, timeout_seconds := 2,
             success_threshold := 3, failure_threshold := 5 } }]
    workload_settings :=
      [{ name := "w1", description := some "wd", parameter_type := ParameterType.Boolean,
         required := false, default := some (Json.bool true), from_param := some "p1" }] }

/-- Witness for C9 at a fully populated Component. -/
theorem C9_roundtrip_witness :
    wfComponent fullComponent = true
  ∧ decodeComponent (encodeComponent fullComponent) = Except.ok fullComponent :=
  ⟨rfl, C9_roundtrip fullComponent rfl⟩

end Schematic
